import Mathlib

/-!
Shallow embedding of the X402 payment handler
(src/webscrapper/x402_payment_handler.py, and the identical decision
methods of src/webscrapper/x402_payment_handler_real.py) together with
theorems settling the specification claims about it.

Conventions of the embedding:
* Wall-clock instants and durations are rationals (seconds).
* Python float literals such as 0.01 are embedded as the rationals they denote.
* An HTTP response is its status code plus a header list; requests header
  lookup is modelled by first-match lookup on the canonical-cased key names
  the handler uses.
* Fallible Python code (raise / except) is embedded with Except; functions
  whose bodies contain no raising operation are total.
* Network effects (the verification POST, the blockchain transaction hash)
  are passed in as explicit environment arguments.
-/

/-- String helpers mirroring the Python operations used by the handler. -/
def containsSub (needle : List Char) : List Char → Bool
  | [] => needle.isEmpty
  | c :: rest => needle.isPrefixOf (c :: rest) || containsSub needle rest

/-- Python substring test: needle in hay. -/
def strContains (hay needle : String) : Bool :=
  containsSub needle.toList hay.toList

/-- Python str.lower restricted to the ASCII data the handler compares. -/
def strLower (s : String) : String :=
  String.mk (s.toList.map Char.toLower)

/-- Python str.startswith. -/
def strStartsWith (s p : String) : Bool :=
  p.toList.isPrefixOf s.toList

/-- Python truthiness-aware or for an optional string attribute:
a or d is d when a is None or the empty string. -/
def pyOrDefault (a : Option String) (d : String) : String :=
  match a with
  | none => d
  | some s => if s = "" then d else s

/-- Numeric value of a list of decimal digit characters. -/
def digitsVal (l : List Char) : Nat :=
  l.foldl (fun a c => 10 * a + (c.toNat - 48)) 0

/-- Grammar stage of Python float() on plain decimal literals: an optional
sign, digits, an optional single decimal point. Yields the negativity flag
and the integer and fraction digit lists, or none when the literal is
malformed (float() raises ValueError there). -/
def parseDecimalParts (s : String) : Option (Bool × List Char × List Char) :=
  let l := s.toList
  let neg := l.headD ' ' == '-'
  let body := if l.headD ' ' == '-' || l.headD ' ' == '+' then l.tail else l
  let intPart := body.takeWhile Char.isDigit
  let rest := body.dropWhile Char.isDigit
  if rest.isEmpty then
    if intPart.isEmpty then none else some (neg, intPart, [])
  else if rest.headD ' ' == '.' then
    let frac := rest.tail
    if frac.all Char.isDigit && !(intPart.isEmpty && frac.isEmpty) then
      some (neg, intPart, frac)
    else none
  else none

/-- Python float() on plain decimal literals, as the rational the literal
denotes; none embeds a ValueError. -/
def parseDecimal (s : String) : Option ℚ :=
  (parseDecimalParts s).map (fun p =>
    (if p.1 then (-1 : ℚ) else 1) *
      ((digitsVal p.2.1 : ℚ) + (digitsVal p.2.2 : ℚ) / (10 : ℚ) ^ p.2.2.length))

/-- An HTTP response as the handler consumes it: status code and headers. -/
structure HttpResponse where
  status_code : Nat
  headers : List (String × String)

/-- Header lookup (requests response.headers.get k). -/
def getHeader (r : HttpResponse) (k : String) : Option String :=
  (r.headers.find? (fun p => p.1 == k)).map (fun p => p.2)

/-- Header lookup with default (requests response.headers.get k d). -/
def getHeaderD (r : HttpResponse) (k d : String) : String :=
  (getHeader r k).getD d

/-- The configuration the X402PaymentHandler constructor installs:
payment_address (possibly None), the payment system URL, the expected
amount 0.01, currency MOVE, and the 60 second whitelist duration. -/
structure Config where
  payment_address : Option String
  bot_payment_system_url : String
  payment_amount : ℚ
  payment_currency : String
  whitelist_duration : ℚ

/-- X402PaymentHandler.__init__ with its hardcoded defaults. -/
def mkHandlerConfig (payment_address : Option String) : Config :=
  { payment_address := payment_address
    bot_payment_system_url := "http://localhost:3000/api/x402-payment"
    payment_amount := 1 / 100
    payment_currency := "MOVE"
    whitelist_duration := 60 }

/-- The mutable per-handler payment tracking state. -/
structure HandlerState where
  last_payment_time : Option ℚ
  last_transaction_id : Option String

/-- X402PaymentHandler.detect_payment_required: a 402 whose
WWW-Authenticate header mentions X402-Payment and which carries all three
X402 payment headers. -/
def detect_payment_required (r : HttpResponse) : Bool :=
  if r.status_code ≠ 402 then false
  else
    let www_auth := getHeaderD r "WWW-Authenticate" ""
    if !(strContains www_auth "X402-Payment") then false
    else
      (getHeader r "X402-Payment-Address").isSome &&
      (getHeader r "X402-Payment-Amount").isSome &&
      (getHeader r "X402-Payment-Currency").isSome

/-- X402PaymentHandler.get_client_ip: the hardcoded configured IP. -/
def get_client_ip (st : HandlerState) : String :=
  "210.212.2.133"

/-- X402RealPaymentHandler.get_client_ip of x402_payment_handler_real.py:
also the hardcoded configured IP. -/
def get_client_ip_real (st : HandlerState) : String :=
  "210.212.2.133"

/-- X402PaymentHandler.is_whitelist_expired: expired when there is no
payment record, or when now - last_payment_time has reached the
whitelist duration. -/
def is_whitelist_expired (last_payment_time : Option ℚ) (now duration : ℚ) :
    Bool :=
  match last_payment_time with
  | none => true
  | some t => decide (now - t ≥ duration)

/-- X402PaymentHandler.should_trigger_new_payment: on a 402 or 403,
trigger when the whitelist is expired, or the 402 carries a structured
X402 challenge, or the status is 403. -/
def should_trigger_new_payment (cfg : Config) (st : HandlerState) (now : ℚ)
    (r : HttpResponse) : Bool :=
  if r.status_code = 402 ∨ r.status_code = 403 then
    if is_whitelist_expired st.last_payment_time now cfg.whitelist_duration then
      true
    else if r.status_code = 402 && detect_payment_required r then
      true
    else if r.status_code = 403 then
      true
    else false
  else false

/-- The network outcome of the verification POST to the payment system:
either an HTTP response (status, and the truthiness of the verified field
of its JSON body), or a requests.RequestException with its message. -/
inductive VerifyOutcome where
  | response (status : Nat) (verified : Bool)
  | exn (msg : String)

/-- X402PaymentHandler.verify_payment_with_system: trust a 200 response
verdict; on any other status fail; on a connection or timeout exception
fall back to the syntactic transaction-id check (nonempty, starts with 0x,
length 66); on any other exception fail. -/
def verify_payment_with_system (transaction_id : String)
    (outcome : VerifyOutcome) : Bool :=
  match outcome with
  | .response status verified => if status = 200 then verified else false
  | .exn msg =>
    if strContains msg "Connection" || strContains (strLower msg) "timeout" then
      (transaction_id != "") && strStartsWith transaction_id "0x" &&
        (transaction_id.length == 66)
    else false

/-- One whitelist-wait poll loop body, as a deterministic simulation of
wall-clock time: the loop of X402PaymentHandler.wait_for_whitelist.
While elapsed is below the timeout: succeed once elapsed has reached the
5 second propagation floor, otherwise sleep min(checkInterval, 5) and
multiply the interval by 1.2 capped at 5. The fuel argument bounds the
recursion; the loop sleeps at least 2 seconds per iteration so any fuel
of at least 4 reproduces the unbounded loop. Returns the decision and the
elapsed time at return. -/
def waitLoop (timeout : ℚ) : ℚ → ℚ → Nat → Bool × ℚ
  | _, elapsed, 0 => (false, elapsed)
  | checkInterval, elapsed, fuel + 1 =>
    if elapsed < timeout then
      if elapsed ≥ 5 then (true, elapsed)
      else
        waitLoop timeout (min (checkInterval * (6 / 5)) 5)
          (elapsed + min checkInterval 5) fuel
    else (false, elapsed)

/-- X402PaymentHandler.wait_for_whitelist: run the poll loop starting at
elapsed 0 with a 2 second initial interval. The body contains no raising
operation (sleep arguments are positive constants), so the call always
returns normally, embedded as ok. -/
def wait_for_whitelist (fuel : Nat) (timeout : ℚ) : Except String (Bool × ℚ) :=
  Except.ok (waitLoop timeout 2 0 fuel)

/-- The transaction id X402PaymentHandler.make_move_payment emits: the
prefix 0x followed by the first 64 characters of the sha256 hex digest of
the nonce data (a hex digest always has exactly 64 characters). -/
def mkTransactionId (hexDigest : String) : String :=
  "0x" ++ String.mk (hexDigest.toList.take 64)

/-- X402PaymentHandler.make_move_payment: validate the amount against the
configured amount (raising ValueError on mismatch), then emit the
transaction id built from the environment-supplied sha256 digest and
record the payment time and id in the handler state. -/
def make_move_payment (cfg : Config) (hexDigest : String) (now : ℚ)
    (address : String) (amount : ℚ) : Except String (String × HandlerState) :=
  if amount ≠ cfg.payment_amount then
    Except.error "Invalid payment amount"
  else
    let transaction_id := mkTransactionId hexDigest
    Except.ok (transaction_id,
      { last_payment_time := some now
        last_transaction_id := some transaction_id })

/-- The payment details extracted from a structured 402 challenge. -/
structure PaymentDetails where
  payment_address : String
  payment_amount : ℚ
  payment_currency : String

/-- X402PaymentHandler.extract_payment_details: reject a response the
detector refuses; parse the amount header with float() (default 0);
then require exact equality of amount and currency with the configured
values, any failure raising ValueError. -/
def extract_payment_details (cfg : Config) (r : HttpResponse) :
    Except String PaymentDetails :=
  if !(detect_payment_required r) then
    Except.error "Response does not contain valid X402 payment requirements"
  else
    match parseDecimal (getHeaderD r "X402-Payment-Amount" "0") with
    | none => Except.error "Invalid payment details in response: could not convert string to float"
    | some amount =>
      if amount ≠ cfg.payment_amount then
        Except.error "Invalid payment details in response: Unexpected payment amount"
      else if getHeaderD r "X402-Payment-Currency" "" ≠ cfg.payment_currency then
        Except.error "Invalid payment details in response: Unexpected payment currency"
      else
        Except.ok
          { payment_address := getHeaderD r "X402-Payment-Address" ""
            payment_amount := amount
            payment_currency := getHeaderD r "X402-Payment-Currency" "" }

/-- Fuel amply covering the at most four iterations the simulated wait
loop can take. -/
def waitFuel : Nat := 64

/-- X402PaymentHandler.handle_payment_required: extract the challenge,
execute the payment, verify it with the system, wait for whitelisting;
any raised error is caught and yields false. Besides the success flag and
the final handler state, the embedding returns the list of
(address, amount) invocations of make_move_payment performed, so that
theorems can speak about which transfers a cycle attempts. -/
def handle_payment_required (cfg : Config) (hexDigest : String)
    (outcome : VerifyOutcome) (now : ℚ) (st : HandlerState)
    (r : HttpResponse) (client_ip : String) :
    Bool × HandlerState × List (String × ℚ) :=
  match extract_payment_details cfg r with
  | Except.error _ => (false, st, [])
  | Except.ok pd =>
    match make_move_payment cfg hexDigest now pd.payment_address
        pd.payment_amount with
    | Except.error _ => (false, st, [(pd.payment_address, pd.payment_amount)])
    | Except.ok (transaction_id, st1) =>
      if !(verify_payment_with_system transaction_id outcome) then
        (false, st1, [(pd.payment_address, pd.payment_amount)])
      else
        match wait_for_whitelist waitFuel 30 with
        | Except.error _ => (false, st1, [(pd.payment_address, pd.payment_amount)])
        | Except.ok (ok, _) =>
          if !ok then (false, st1, [(pd.payment_address, pd.payment_amount)])
          else (true, st1, [(pd.payment_address, pd.payment_amount)])

/-- X402PaymentHandler.handle_expired_whitelist: reset the payment
tracking; a structured 402 challenge is handled by the normal flow;
otherwise synthesize the payment from the configured address (with the
hardcoded default when unset or empty) and the configured amount, then
pay, verify and wait as in the normal flow. -/
def handle_expired_whitelist (cfg : Config) (hexDigest : String)
    (outcome : VerifyOutcome) (now : ℚ) (st : HandlerState)
    (r : HttpResponse) (client_ip : String) :
    Bool × HandlerState × List (String × ℚ) :=
  let st0 : HandlerState :=
    { last_payment_time := none, last_transaction_id := none }
  if r.status_code = 402 && detect_payment_required r then
    handle_payment_required cfg hexDigest outcome now st0 r client_ip
  else
    let address := pyOrDefault cfg.payment_address "default_payment_address"
    match make_move_payment cfg hexDigest now address cfg.payment_amount with
    | Except.error _ => (false, st0, [(address, cfg.payment_amount)])
    | Except.ok (transaction_id, st1) =>
      if !(verify_payment_with_system transaction_id outcome) then
        (false, st1, [(address, cfg.payment_amount)])
      else
        match wait_for_whitelist waitFuel 30 with
        | Except.error _ => (false, st1, [(address, cfg.payment_amount)])
        | Except.ok (ok, _) =>
          if !ok then (false, st1, [(address, cfg.payment_amount)])
          else (true, st1, [(address, cfg.payment_amount)])

/-- Evaluation of the verifier on a connection or timeout exception:
the fallback reduces to the syntactic transaction-id check. -/
theorem verify_fallback_eval (msg tx : String)
    (hconn : (strContains msg "Connection" ||
      strContains (strLower msg) "timeout") = true) :
    verify_payment_with_system tx (VerifyOutcome.exn msg) =
      ((tx != "") && strStartsWith tx "0x" && (tx.length == 66)) := by
  unfold verify_payment_with_system
  simp [hconn]

/-- A string of length 66 is not the empty string. -/
theorem ne_empty_of_length66 (tx : String) (hlen : tx.length = 66) :
    tx ≠ "" := by
  intro h
  subst h
  simp at hlen

/-- C3: a payment record created at time T with whitelist duration D reports
expired false at every query time in the interval from T inclusive to
T plus D exclusive, and expired true at every query time from T plus D on;
in particular the window counts as expired at exactly T plus D. -/
theorem whitelist_expiry_window (T D now : ℚ) :
    (T ≤ now → now < T + D → is_whitelist_expired (some T) now D = false) ∧
    (T + D ≤ now → is_whitelist_expired (some T) now D = true) := by
  constructor
  · intro _ h2
    simp only [is_whitelist_expired, decide_eq_false_iff_not, not_le]
    linarith
  · intro h
    simp only [is_whitelist_expired, decide_eq_true_eq, ge_iff_le]
    linarith

/-- C3 witness: with the record created at 0 and duration 60, time 10 is
not expired, and time 60 is expired. -/
theorem whitelist_expiry_window_witness :
    is_whitelist_expired (some 0) 10 60 = false ∧
    is_whitelist_expired (some 0) 60 60 = true :=
  ⟨(whitelist_expiry_window 0 60 10).1 (by norm_num) (by norm_num),
   (whitelist_expiry_window 0 60 60).2 (by norm_num)⟩

/-- C10: in both handler variants, get_client_ip ignores the handler state
and returns the hardcoded string 210.212.2.133, so every verification
request carries the same context identifier. -/
theorem client_ip_hardcoded (st1 st2 : HandlerState) :
    get_client_ip st1 = "210.212.2.133" ∧
    get_client_ip_real st2 = "210.212.2.133" :=
  ⟨rfl, rfl⟩

/-- C9: a payment-required response that lacks the X402-Payment marker in
its WWW-Authenticate header, or misses any of the three payment headers,
is classified not applicable by the detector (which is a total function:
no code path raises). -/
theorem detect_missing_headers_not_applicable (r : HttpResponse)
    (h402 : r.status_code = 402)
    (hmiss : strContains (getHeaderD r "WWW-Authenticate" "") "X402-Payment" = false ∨
      getHeader r "X402-Payment-Address" = none ∨
      getHeader r "X402-Payment-Amount" = none ∨
      getHeader r "X402-Payment-Currency" = none) :
    detect_payment_required r = false := by
  unfold detect_payment_required
  rcases hmiss with h | h | h | h <;> simp [h402, h]

/-- C9 witness: a bare 402 with no headers at all is not applicable. -/
theorem detect_missing_headers_not_applicable_witness :
    detect_payment_required { status_code := 402, headers := [] } = false :=
  detect_missing_headers_not_applicable
    { status_code := 402, headers := [] } rfl (Or.inl (by decide))

/-- C8: when the verification POST fails with a connection or timeout
exception, verification succeeds exactly for transaction ids of the shape
the payment executor emits: the prefix 0x and total length 66. -/
theorem fallback_verification_shape (msg tx : String)
    (hconn : strContains msg "Connection" = true ∨
      strContains (strLower msg) "timeout" = true) :
    verify_payment_with_system tx (VerifyOutcome.exn msg) = true ↔
      (strStartsWith tx "0x" = true ∧ tx.length = 66) := by
  have hc : (strContains msg "Connection" ||
      strContains (strLower msg) "timeout") = true := by
    rcases hconn with h | h <;> simp [h]
  rw [verify_fallback_eval msg tx hc]
  simp only [Bool.and_eq_true, bne_iff_ne, ne_eq, beq_iff_eq]
  constructor
  · rintro ⟨⟨_, hp⟩, hl⟩
    exact ⟨hp, hl⟩
  · rintro ⟨hp, hl⟩
    exact ⟨⟨ne_empty_of_length66 tx hl, hp⟩, hl⟩

/-- C8 witness: with the authority unreachable, a 66 character 0x-prefixed
id verifies via the fallback. -/
theorem fallback_verification_shape_witness :
    verify_payment_with_system
      "0xaaaaaaaaaaaaaaaaaaaaaaaaaaaaaaaaaaaaaaaaaaaaaaaaaaaaaaaaaaaaaaaa"
      (VerifyOutcome.exn "Connection refused") = true :=
  (fallback_verification_shape "Connection refused"
      "0xaaaaaaaaaaaaaaaaaaaaaaaaaaaaaaaaaaaaaaaaaaaaaaaaaaaaaaaaaaaaaaaa"
      (Or.inl (by decide))).mpr ⟨by decide, by decide⟩

/-- The poll loop reports success only with elapsed time at or past the
5 second floor. -/
theorem waitLoop_true_elapsed_ge_floor (timeout : ℚ) :
    ∀ (fuel : Nat) (ci e : ℚ), (waitLoop timeout ci e fuel).1 = true →
      (waitLoop timeout ci e fuel).2 ≥ 5 := by
  intro fuel
  induction fuel with
  | zero =>
    intro ci e h
    simp [waitLoop] at h
  | succ n ih =>
    intro ci e h
    by_cases h1 : e < timeout
    · by_cases h2 : e ≥ 5
      · simp only [waitLoop, if_pos h1, if_pos h2] at h ⊢
        exact h2
      · simp only [waitLoop, if_pos h1, if_neg h2] at h ⊢
        exact ih _ _ h
    · simp only [waitLoop, if_neg h1] at h
      exact absurd h (by decide)

/-- With a timeout at or below the 5 second floor, the poll loop can never
report success. -/
theorem waitLoop_short_timeout_false (timeout : ℚ) (htm : timeout ≤ 5) :
    ∀ (fuel : Nat) (ci e : ℚ), (waitLoop timeout ci e fuel).1 = false := by
  intro fuel
  induction fuel with
  | zero =>
    intro ci e
    simp [waitLoop]
  | succ n ih =>
    intro ci e
    by_cases h1 : e < timeout
    · have h2 : ¬ (e ≥ 5) := by
        simp only [ge_iff_le, not_le]
        linarith
      simp only [waitLoop, if_pos h1, if_neg h2]
      exact ih _ _
    · simp only [waitLoop, if_neg h1]

/-- C7: the waiter never reports success before the 5 second propagation
floor has elapsed, and with any timeout at or below the floor it returns
false. -/
theorem wait_floor_property (fuel : Nat) (timeout : ℚ) (b : Bool) (e : ℚ)
    (hret : wait_for_whitelist fuel timeout = Except.ok (b, e)) :
    (b = true → e ≥ 5) ∧ (timeout ≤ 5 → b = false) := by
  have hpair : (b, e) = waitLoop timeout 2 0 fuel := by
    have := hret
    unfold wait_for_whitelist at this
    exact (Except.ok.injEq _ _).mp this.symm
  constructor
  · intro hb
    have h1 := waitLoop_true_elapsed_ge_floor timeout fuel 2 0
    rw [← hpair] at h1
    exact h1 hb
  · intro htm
    have h2 := waitLoop_short_timeout_false timeout htm fuel 2 0
    rw [← hpair] at h2
    exact h2

/-- C7 witness: a 30 second wait succeeds with 7.28 seconds elapsed, at or
past the floor; a 4 second wait returns false. -/
theorem wait_floor_property_witness :
    ((182 : ℚ) / 25 ≥ 5) ∧ (false : Bool) = false :=
  ⟨(wait_floor_property 8 30 true (182 / 25)
      (by norm_num [wait_for_whitelist, waitLoop])).1 rfl,
   (wait_floor_property 8 4 false (22 / 5)
      (by norm_num [wait_for_whitelist, waitLoop])).2 (by norm_num)⟩

/-- C6 counterexample: called with the negative timeout minus one, the
waiter does not raise: it returns normally with false (at elapsed 0),
contradicting the claim that a negative timeout raises. -/
theorem wait_negative_timeout_cex :
    wait_for_whitelist 8 (-1) = Except.ok (false, 0) := by
  norm_num [wait_for_whitelist, waitLoop]

/-- C6 (amended): the waiter returns false on timeout and never raises at
all; in particular a nonpositive timeout returns false immediately rather
than raising. -/
theorem wait_never_raises (fuel : Nat) (timeout : ℚ) :
    (∃ b e, wait_for_whitelist fuel timeout = Except.ok (b, e)) ∧
    (timeout ≤ 0 → wait_for_whitelist fuel timeout = Except.ok (false, 0)) := by
  constructor
  · exact ⟨(waitLoop timeout 2 0 fuel).1, (waitLoop timeout 2 0 fuel).2, rfl⟩
  · intro h
    unfold wait_for_whitelist
    cases fuel with
    | zero => simp [waitLoop]
    | succ n =>
      have h1 : ¬ ((0 : ℚ) < timeout) := by linarith
      simp [waitLoop, h1]

/-- C6 witness: at timeout minus two the waiter returns false normally. -/
theorem wait_never_raises_witness :
    wait_for_whitelist 8 (-2) = Except.ok (false, 0) :=
  (wait_never_raises 8 (-2)).2 (by norm_num)

/-- C1 counterexample: with a payment record created at time 0, queried at
time 10 with the default 60 second duration, the window is still valid,
yet a 403 response yields the trigger decision true, not the claimed
no-trigger decision. -/
theorem trigger_on_403_valid_window_cex :
    is_whitelist_expired (some 0) 10 (mkHandlerConfig none).whitelist_duration
        = false ∧
    should_trigger_new_payment (mkHandlerConfig none)
      { last_payment_time := some 0, last_transaction_id := some "t" } 10
      { status_code := 403, headers := [] } = true := by
  have hexp : is_whitelist_expired (some 0) 10
      (mkHandlerConfig none).whitelist_duration = false := by
    simp only [mkHandlerConfig, is_whitelist_expired, decide_eq_false_iff_not,
      not_le]
    norm_num
  refine ⟨hexp, ?_⟩
  simp [should_trigger_new_payment, hexp]

/-- C1 (amended): every 403 response yields the trigger decision, whether
or not the access window is still valid; the code never classifies a 403
under a valid window as a blocked non-payment denial. -/
theorem trigger_on_403_always (cfg : Config) (st : HandlerState) (now : ℚ)
    (r : HttpResponse) (h : r.status_code = 403) :
    should_trigger_new_payment cfg st now r = true := by
  unfold should_trigger_new_payment
  by_cases hexp :
      is_whitelist_expired st.last_payment_time now cfg.whitelist_duration
  · simp [h, hexp]
  · simp [h, hexp]

/-- C1 witness: a 403 with no payment record triggers. -/
theorem trigger_on_403_always_witness :
    should_trigger_new_payment (mkHandlerConfig none)
      { last_payment_time := none, last_transaction_id := none } 0
      { status_code := 403, headers := [] } = true :=
  trigger_on_403_always (mkHandlerConfig none)
    { last_payment_time := none, last_transaction_id := none } 0
    { status_code := 403, headers := [] } rfl

/-- C2 counterexample: with the authority unreachable, a well-shaped
transaction id verifies via the fallback to the very same plain boolean
true that an authority-confirmed verification returns; the result carries
no distinct degraded tag. -/
theorem fallback_not_tagged_cex :
    verify_payment_with_system
      "0xbbbbbbbbbbbbbbbbbbbbbbbbbbbbbbbbbbbbbbbbbbbbbbbbbbbbbbbbbbbbbbbb"
      (VerifyOutcome.exn "Connection refused") = true ∧
    verify_payment_with_system
      "0xbbbbbbbbbbbbbbbbbbbbbbbbbbbbbbbbbbbbbbbbbbbbbbbbbbbbbbbbbbbbbbbb"
      (VerifyOutcome.response 200 true) = true :=
  ⟨by decide, rfl⟩

/-- C2 (amended): whenever verification succeeds via the fallback path,
the caller receives exactly the same untagged boolean true as from an
authority-confirmed verification: the fallback outcome is indistinguishable
in the returned value. -/
theorem fallback_returns_plain_true (msg tx : String)
    (hconn : strContains msg "Connection" = true ∨
      strContains (strLower msg) "timeout" = true)
    (hpre : strStartsWith tx "0x" = true) (hlen : tx.length = 66) :
    verify_payment_with_system tx (VerifyOutcome.exn msg) =
      verify_payment_with_system tx (VerifyOutcome.response 200 true) := by
  have hc : (strContains msg "Connection" ||
      strContains (strLower msg) "timeout") = true := by
    rcases hconn with h | h <;> simp [h]
  rw [verify_fallback_eval msg tx hc]
  have hgen : verify_payment_with_system tx (VerifyOutcome.response 200 true)
      = true := rfl
  rw [hgen]
  simp only [Bool.and_eq_true, bne_iff_ne, ne_eq, beq_iff_eq]
  exact ⟨⟨ne_empty_of_length66 tx hlen, hpre⟩, hlen⟩

/-- C2 witness: a timeout exception with a well-shaped id yields the same
result as an authority confirmation. -/
theorem fallback_returns_plain_true_witness :
    verify_payment_with_system
      "0xcccccccccccccccccccccccccccccccccccccccccccccccccccccccccccccccc"
      (VerifyOutcome.exn "Read Timeout") =
    verify_payment_with_system
      "0xcccccccccccccccccccccccccccccccccccccccccccccccccccccccccccccccc"
      (VerifyOutcome.response 200 true) :=
  fallback_returns_plain_true "Read Timeout"
    "0xcccccccccccccccccccccccccccccccccccccccccccccccccccccccccccccccc"
    (Or.inr (by decide)) (by decide) (by decide)

/-- C4: a structured challenge whose parsed amount or currency differs
from the configured expected values makes extraction fail with a
ValueError, and the payment cycle driven from that response returns
failure with the state unchanged and an empty list of executor
invocations: no transfer is attempted and no payment record is created. -/
theorem mismatch_never_pays (cfg : Config) (hexDigest : String)
    (outcome : VerifyOutcome) (now : ℚ) (st : HandlerState)
    (r : HttpResponse) (ip : String) (a : ℚ)
    (hdet : detect_payment_required r = true)
    (hparse : parseDecimal (getHeaderD r "X402-Payment-Amount" "0") = some a)
    (hmis : a ≠ cfg.payment_amount ∨
      getHeaderD r "X402-Payment-Currency" "" ≠ cfg.payment_currency) :
    (∃ msg, extract_payment_details cfg r = Except.error msg) ∧
    handle_payment_required cfg hexDigest outcome now st r ip
      = (false, st, []) := by
  have herr : ∃ msg, extract_payment_details cfg r = Except.error msg := by
    rcases hmis with hm | hm
    · exact ⟨"Invalid payment details in response: Unexpected payment amount",
        by simp [extract_payment_details, hdet, hparse, hm]⟩
    · by_cases ha : a = cfg.payment_amount
      · exact ⟨"Invalid payment details in response: Unexpected payment currency",
          by simp [extract_payment_details, hdet, hparse, ha, hm]⟩
      · exact ⟨"Invalid payment details in response: Unexpected payment amount",
          by simp [extract_payment_details, hdet, hparse, ha]⟩
  obtain ⟨msg, hmsg⟩ := herr
  refine ⟨⟨msg, hmsg⟩, ?_⟩
  simp [handle_payment_required, hmsg]

/-- C4 witness: a challenge carrying amount 0.02 against the configured
0.01 fails extraction and triggers no executor invocation. -/
theorem mismatch_never_pays_witness :
    (∃ msg, extract_payment_details (mkHandlerConfig none)
      { status_code := 402
        headers := [("WWW-Authenticate", "X402-Payment required"),
          ("X402-Payment-Address", "0x123"),
          ("X402-Payment-Amount", "0.02"),
          ("X402-Payment-Currency", "MOVE")] } = Except.error msg) ∧
    handle_payment_required (mkHandlerConfig none) "d"
      (VerifyOutcome.response 200 true) 0
      { last_payment_time := none, last_transaction_id := none }
      { status_code := 402
        headers := [("WWW-Authenticate", "X402-Payment required"),
          ("X402-Payment-Address", "0x123"),
          ("X402-Payment-Amount", "0.02"),
          ("X402-Payment-Currency", "MOVE")] } "ip"
      = (false, { last_payment_time := none, last_transaction_id := none },
          []) :=
  mismatch_never_pays (mkHandlerConfig none) "d"
    (VerifyOutcome.response 200 true) 0
    { last_payment_time := none, last_transaction_id := none }
    { status_code := 402
      headers := [("WWW-Authenticate", "X402-Payment required"),
        ("X402-Payment-Address", "0x123"),
        ("X402-Payment-Amount", "0.02"),
        ("X402-Payment-Currency", "MOVE")] } "ip" (1 / 50)
    (by decide)
    (by
      have h1 : getHeaderD
          { status_code := 402
            headers := [("WWW-Authenticate", "X402-Payment required"),
              ("X402-Payment-Address", "0x123"),
              ("X402-Payment-Amount", "0.02"),
              ("X402-Payment-Currency", "MOVE")] } "X402-Payment-Amount" "0"
          = "0.02" := by decide
      rw [h1]
      have h : parseDecimalParts "0.02" = some (false, ['0'], ['0', '2']) := by
        decide
      have h0 : digitsVal ['0'] = 0 := by decide
      have h2 : digitsVal ['0', '2'] = 2 := by decide
      simp [parseDecimal, h, h0, h2]
      norm_num)
    (Or.inl (by norm_num [mkHandlerConfig]))

set_option maxRecDepth 4000 in
/-- C5: when the triggering response carries no structured 402 challenge,
the expiry-renewal cycle executes exactly one payment, to the statically
configured address (falling back to the hardcoded default when the address
is unset or empty) with the configured amount; the conclusion does not
depend on the response, so no value from the denial response influences
the address or amount paid. -/
theorem renewal_pays_configured (cfg : Config) (hexDigest : String)
    (outcome : VerifyOutcome) (now : ℚ) (st : HandlerState)
    (r : HttpResponse) (ip : String)
    (h : ¬ (r.status_code = 402 ∧ detect_payment_required r = true)) :
    (handle_expired_whitelist cfg hexDigest outcome now st r ip).2.2 =
      [(pyOrDefault cfg.payment_address "default_payment_address",
        cfg.payment_amount)] := by
  have hcond : (r.status_code = 402 && detect_payment_required r) = false := by
    by_cases h402 : r.status_code = 402
    · have hdet : detect_payment_required r = false := by
        by_contra hny
        exact h ⟨h402, by simpa using hny⟩
      simp [h402, hdet]
    · simp [h402]
  have hwl : waitLoop 30 2 0 waitFuel = (true, 182 / 25) := by
    norm_num [waitFuel, waitLoop]
  cases hv : verify_payment_with_system (mkTransactionId hexDigest) outcome with
  | false =>
    simp [handle_expired_whitelist, hcond, make_move_payment, hv]
  | true =>
    simp [handle_expired_whitelist, hcond, make_move_payment, hv,
      wait_for_whitelist, hwl]

/-- C5 witness: a bare 403 renewal pays the configured address addr1 with
the configured amount. -/
theorem renewal_pays_configured_witness :
    (handle_expired_whitelist (mkHandlerConfig (some "addr1")) "d"
      (VerifyOutcome.response 200 true) 0
      { last_payment_time := some 0, last_transaction_id := none }
      { status_code := 403, headers := [] } "ip").2.2 =
      [(pyOrDefault (some "addr1") "default_payment_address",
        (mkHandlerConfig (some "addr1")).payment_amount)] :=
  renewal_pays_configured (mkHandlerConfig (some "addr1")) "d"
    (VerifyOutcome.response 200 true) 0
    { last_payment_time := some 0, last_transaction_id := none }
    { status_code := 403, headers := [] } "ip" (by decide)
